import Mathlib

/-!
# Verification of the PSMoveService network transport layer

Shallow embedding of `src/psmoveservice/ServerNetworkManager.cpp`:
the per-connection outbound queues with their single-in-flight-write
discipline, the connection registry, the rendezvous coordinator on the
shared UDP socket, and the bounded `poll()` loop.

Machine integers are modelled as `Nat`/`Int`; payloads (protobuf
messages) are opaque, carried as their encoded body size (`Nat`) for
data frames and as a record with correlation id for responses.  Each
asynchronous socket operation is tracked by an explicit "outstanding"
counter: initiating the operation increments it, the arrival of its
completion callback decrements it; a completion event for an operation
that was never initiated is a no-op of the model (the transport fires
exactly one callback per initiated operation).
-/

set_option autoImplicit false

namespace ServerNetworkManager

/-- Modelled from the spec: the fixed size of the length header produced
by `PackedMessage::pack` (packedmessage.h is not part of the core source;
the spec describes it as a fixed-width unsigned integer declaring the
body length in bytes).  The concrete value is irrelevant to the claims. -/
def HEADER_SIZE : Nat := 4

/-- Modelled from the spec: the fixed maximum telemetry body size
(declared in a header not part of the core source; the spec only requires
that `m_dataframe_write_buffer` has the fixed size
`HEADER_SIZE + MAX_DATA_FRAME_MESSAGE_SIZE`). -/
def MAX_DATA_FRAME_MESSAGE_SIZE : Nat := 64

/-!
## Per-queue model (one outbound queue of one `ClientConnection`)

`ClientConnection` owns two outbound queues with the same discipline:

* the TCP response queue: `m_pending_responses` /
  `add_tcp_response_to_write_queue` / `start_tcp_write_queued_response` /
  `handle_write_response_complete`;
* the UDP data-frame queue: `m_pending_dataframes` /
  `add_controller_data_frame_to_write_queue` /
  `start_udp_write_queued_controller_data_frame` /
  `handle_udp_write_controller_data_frame_complete`.

The two differ in exactly two points, which the model takes as
parameters: whether packing the head item can fail (`canPack`; the TCP
path packs into a growable vector and never fails, the UDP path packs
into the fixed buffer and fails for oversize frames), and whether the
completion handler immediately chains the next write (`chain`; true for
the TCP handler, false for the UDP handler, whose next write is started
by the `poll()` scan).

Items are identified by a `Nat` (for the UDP queue it is the encoded
body size, which is what `canPack` inspects).
-/

/-- State of one outbound queue together with the transport-level and
trace ghost data needed to state the claims:

* `pending` is the `std::deque` of queued items;
* `hasPendingWrite` is the `m_has_pending_tcp_write` /
  `m_has_pending_udp_write` flag;
* `stopped` is `m_connection_stopped`;
* `inflight` is the content of the write buffer handed to the transport
  while a write is outstanding (`m_response_write_buffer` /
  `m_dataframe_write_buffer`);
* `outstanding` counts asynchronous writes initiated on the socket whose
  completion callback has not yet fired (ghost);
* `enqueued` and `completed` are the traces of all items ever enqueued
  and of all items whose successful write completion popped them (ghost). -/
structure QState where
  pending : List Nat
  hasPendingWrite : Bool
  stopped : Bool
  inflight : Option Nat
  outstanding : Nat
  enqueued : List Nat
  completed : List Nat
deriving DecidableEq, Repr

/-- Initial queue state of a freshly constructed `ClientConnection`. -/
def qInit : QState := ⟨[], false, false, none, 0, [], []⟩

/-- Events a queue can receive: an enqueue call, a call to the
`start_*_write_queued_*` member, the completion callback of an
asynchronous write (with its error code), and `stop()`. -/
inductive QEvent where
  | enq (x : Nat)
  | tryStart
  | complete (failed : Bool)
  | stopEv
deriving DecidableEq, Repr

/-- Models `add_tcp_response_to_write_queue` / `add_controller_data_frame_to_write_queue`:
a plain `push_back`, with no check of any flag. -/
def qEnqueue (x : Nat) (s : QState) : QState :=
  { s with pending := s.pending ++ [x], enqueued := s.enqueued ++ [x] }

/-- Models `stop()` (the queue-relevant part): marks the connection stopped and
clears the in-flight flag.  The transport-level operation, if any, is
still outstanding; its callback will fire later and hit the stopped
check. -/
def qStop (s : QState) : QState :=
  { s with stopped := true, hasPendingWrite := false }

/-- Models `start_tcp_write_queued_response` /
`start_udp_write_queued_controller_data_frame`: if the connection is not
stopped, no write is pending and the queue is non-empty, pack the head
item (which for the UDP queue can fail on oversize frames, modelled by
`canPack`) and initiate one asynchronous write of it.  On pack failure
the frame is only logged — it is *not* removed from the queue. -/
def qTryStart (canPack : Nat → Bool) (s : QState) : QState :=
  if s.stopped then s
  else if s.hasPendingWrite then s
  else
    match s.pending with
    | [] => s
    | x :: _ =>
      if canPack x then
        { s with hasPendingWrite := true, inflight := some x,
                 outstanding := s.outstanding + 1 }
      else s

/-- Models `handle_write_response_complete` /
`handle_udp_write_controller_data_frame_complete`: the completion
callback of one asynchronous write.  The transport retires the operation
(`outstanding` decrements); the handler body returns at once if the
connection was stopped, otherwise on success clears the flag and pops
the head (recording it in the `completed` trace), and — on the TCP queue
only (`chain`) — immediately tries to start the next write; on failure
it calls `stop()`. -/
def qComplete (canPack : Nat → Bool) (chain : Bool) (failed : Bool) (s : QState) : QState :=
  if s.outstanding = 0 then s
  else
    let s1 := { s with outstanding := s.outstanding - 1 }
    if s1.stopped then s1
    else if failed then qStop s1
    else
      let s2 := { s1 with hasPendingWrite := false, inflight := none,
                          completed := s1.completed ++ s1.pending.take 1,
                          pending := s1.pending.tail }
      if chain then qTryStart canPack s2 else s2

/-- One step of the queue state machine. -/
def qStep (canPack : Nat → Bool) (chain : Bool) (s : QState) : QEvent → QState
  | .enq x => qEnqueue x s
  | .tryStart => qTryStart canPack s
  | .complete failed => qComplete canPack chain failed s
  | .stopEv => qStop s

/-- The queue state reached from a fresh connection by a sequence of
events. -/
def qRun (canPack : Nat → Bool) (chain : Bool) (events : List QEvent) : QState :=
  events.foldl (qStep canPack chain) qInit

/-- Inductive invariant of one outbound queue:
at most one write outstanding; the in-flight flag mirrors the
outstanding count while the connection runs; a stopped connection has
the flag cleared; while a write is in flight the transmit buffer holds
the head of the queue; and the enqueue trace is exactly the completed
trace followed by the still-pending items (FIFO). -/
def QInv (s : QState) : Prop :=
  s.outstanding ≤ 1 ∧
  (s.stopped = false → (s.hasPendingWrite = true ↔ s.outstanding = 1)) ∧
  (s.stopped = true → s.hasPendingWrite = false) ∧
  (s.stopped = false → s.hasPendingWrite = true → s.inflight = s.pending.head?) ∧
  (s.hasPendingWrite = true → s.pending ≠ []) ∧
  s.enqueued = s.completed ++ s.pending

lemma qInit_inv : QInv qInit := by
  simp [QInv, qInit]

lemma qEnqueue_inv (x : Nat) (s : QState) (h : QInv s) : QInv (qEnqueue x s) := by
  obtain ⟨h1, h2, h3, h4, h5, h6⟩ := h
  refine ⟨h1, h2, h3, ?_, ?_, ?_⟩
  · intro hs hw
    have hne := h5 hw
    cases hp : s.pending with
    | nil => exact absurd hp hne
    | cons a t =>
      have := h4 hs hw
      simp [qEnqueue, hp] at this ⊢
      exact this
  · intro _
    simp [qEnqueue]
  · simp [qEnqueue, h6]

lemma qStop_inv (s : QState) (h : QInv s) : QInv (qStop s) := by
  obtain ⟨h1, h2, h3, h4, h5, h6⟩ := h
  refine ⟨?_, ?_, ?_, ?_, ?_, ?_⟩
  · simpa [qStop] using h1
  · intro hc; simp [qStop] at hc
  · intro _; simp [qStop]
  · intro _ hc; simp [qStop] at hc
  · intro hc; simp [qStop] at hc
  · simpa [qStop] using h6

lemma qTryStart_inv (canPack : Nat → Bool) (s : QState) (h : QInv s) :
    QInv (qTryStart canPack s) := by
  obtain ⟨h1, h2, h3, h4, h5, h6⟩ := h
  cases hst : s.stopped with
  | true =>
    have he : qTryStart canPack s = s := by simp [qTryStart, hst]
    rw [he]; exact ⟨h1, h2, h3, h4, h5, h6⟩
  | false =>
  cases hfl : s.hasPendingWrite with
  | true =>
    have he : qTryStart canPack s = s := by simp [qTryStart, hst, hfl]
    rw [he]; exact ⟨h1, h2, h3, h4, h5, h6⟩
  | false =>
  cases hp : s.pending with
  | nil =>
    have he : qTryStart canPack s = s := by simp [qTryStart, hst, hfl, hp]
    rw [he]; exact ⟨h1, h2, h3, h4, h5, h6⟩
  | cons x rest =>
  cases hpk : canPack x with
  | false =>
    have he : qTryStart canPack s = s := by simp [qTryStart, hst, hfl, hp, hpk]
    rw [he]; exact ⟨h1, h2, h3, h4, h5, h6⟩
  | true =>
    -- pack succeeded: a write begins
    have hout0 : s.outstanding = 0 := by
      by_contra hne
      have hone : s.outstanding = 1 := by omega
      have hcontra := (h2 hst).mpr hone
      rw [hfl] at hcontra
      exact Bool.noConfusion hcontra
    have he : qTryStart canPack s =
        { s with hasPendingWrite := true, inflight := some x,
                 outstanding := s.outstanding + 1 } := by
      simp [qTryStart, hst, hfl, hp, hpk]
    rw [he]
    refine ⟨?_, ?_, ?_, ?_, ?_, ?_⟩
    · simp [hout0]
    · intro _; simp [hout0]
    · intro hc; rw [hst] at hc; exact Bool.noConfusion hc
    · intro _ _; simp [hp]
    · intro _; simp [hp]
    · exact h6

lemma qComplete_inv (canPack : Nat → Bool) (chain failed : Bool) (s : QState)
    (h : QInv s) : QInv (qComplete canPack chain failed s) := by
  obtain ⟨h1, h2, h3, h4, h5, h6⟩ := h
  by_cases hout : s.outstanding = 0
  · have he : qComplete canPack chain failed s = s := by simp [qComplete, hout]
    rw [he]; exact ⟨h1, h2, h3, h4, h5, h6⟩
  cases hst : s.stopped with
  | true =>
    -- connection already stopped: only the transport counter drops
    have hf0 : s.hasPendingWrite = false := h3 hst
    have he : qComplete canPack chain failed s =
        { s with outstanding := s.outstanding - 1 } := by
      simp [qComplete, hout, hst]
    rw [he]
    refine ⟨?_, ?_, ?_, ?_, ?_, ?_⟩
    · simp; omega
    · intro hc; simp at hc; rw [hst] at hc; exact Bool.noConfusion hc
    · intro _; exact hf0
    · intro hc; simp at hc; rw [hst] at hc; exact Bool.noConfusion hc
    · intro hw; exact h5 hw
    · exact h6
  | false =>
  have hout1 : s.outstanding = 1 := by omega
  have hf1 : s.hasPendingWrite = true := (h2 hst).mpr hout1
  have hne := h5 hf1
  cases failed with
  | true =>
    -- write failed: stop()
    have he : qComplete canPack chain true s =
        qStop { s with outstanding := s.outstanding - 1 } := by
      simp [qComplete, hout, hst]
    rw [he]
    refine ⟨?_, ?_, ?_, ?_, ?_, ?_⟩
    · simp [qStop]; omega
    · intro hc; simp [qStop] at hc
    · intro _; simp [qStop]
    · intro _ hc; simp [qStop] at hc
    · intro hc; simp [qStop] at hc
    · exact h6
  | false =>
    -- write succeeded: clear flag, pop the head, maybe chain
    cases hp : s.pending with
    | nil => exact absurd hp hne
    | cons a t =>
    have hinv2 :
        QInv { s with outstanding := s.outstanding - 1,
                      hasPendingWrite := false, inflight := none,
                      completed := s.completed ++ [a],
                      pending := t } := by
      refine ⟨?_, ?_, ?_, ?_, ?_, ?_⟩
      · simp; omega
      · intro _
        constructor
        · intro hc; exact Bool.noConfusion hc
        · intro hc; simp at hc; omega
      · intro _; rfl
      · intro _ hc; exact Bool.noConfusion hc
      · intro hc; exact Bool.noConfusion hc
      · simp only []
        rw [h6, hp]
        simp
    have he : qComplete canPack chain false s =
        (if chain then
          qTryStart canPack { s with outstanding := s.outstanding - 1,
                                     hasPendingWrite := false, inflight := none,
                                     completed := s.completed ++ [a],
                                     pending := t }
         else { s with outstanding := s.outstanding - 1,
                       hasPendingWrite := false, inflight := none,
                       completed := s.completed ++ [a],
                       pending := t }) := by
      simp [qComplete, hout, hst, hp]
    rw [he]
    cases chain with
    | false => simpa using hinv2
    | true => simpa using qTryStart_inv canPack _ hinv2

lemma qStep_inv (canPack : Nat → Bool) (chain : Bool) (s : QState) (e : QEvent)
    (h : QInv s) : QInv (qStep canPack chain s e) := by
  cases e with
  | enq x => exact qEnqueue_inv x s h
  | tryStart => exact qTryStart_inv canPack s h
  | complete failed => exact qComplete_inv canPack chain failed s h
  | stopEv => exact qStop_inv s h

lemma qRun_inv (canPack : Nat → Bool) (chain : Bool) (events : List QEvent) :
    QInv (qRun canPack chain events) := by
  suffices H : ∀ (l : List QEvent) (s : QState), QInv s →
      QInv (l.foldl (qStep canPack chain) s) by
    exact H events qInit qInit_inv
  intro l
  induction l with
  | nil => intro s hs; exact hs
  | cons e l ih =>
    intro s hs
    exact ih _ (qStep_inv canPack chain s e hs)

/-- Claim C1: For every connection and each of its two outbound queues
(response: `canPack = fun _ => true`, `chain = true`; telemetry:
`canPack = size check`, `chain = false`), for every sequence of enqueue,
start, completion and stop events: at most one write is outstanding on
the queue at any time, the trace of completed writes is a prefix of the
enqueue trace (FIFO), and an enqueue event by itself only appends to the
queue — it never initiates a write and changes no flag. -/
theorem C1_queue_fifo_single_write (canPack : Nat → Bool) (chain : Bool)
    (events : List QEvent) (x : Nat) :
    (qRun canPack chain events).outstanding ≤ 1 ∧
    (∃ rest, (qRun canPack chain events).enqueued =
      (qRun canPack chain events).completed ++ rest) ∧
    qStep canPack chain (qRun canPack chain events) (QEvent.enq x) =
      { qRun canPack chain events with
          pending := (qRun canPack chain events).pending ++ [x],
          enqueued := (qRun canPack chain events).enqueued ++ [x] } := by
  obtain ⟨h1, _, _, _, _, h6⟩ := qRun_inv canPack chain events
  exact ⟨h1, ⟨_, h6⟩, rfl⟩

/-- Claim C4 counterexample: The claim says that after `stop()` an enqueue
is a no-op.  It is not: `add_tcp_response_to_write_queue` /
`add_controller_data_frame_to_write_queue` are plain `push_back`s with no
stopped check, so enqueueing on a stopped connection still grows its
queue. -/
theorem C4_counterexample :
    (qRun (fun _ => true) true [QEvent.stopEv]).stopped = true ∧
    (qStep (fun _ => true) true (qRun (fun _ => true) true [QEvent.stopEv])
        (QEvent.enq 5)).pending ≠
      (qRun (fun _ => true) true [QEvent.stopEv]).pending := by
  decide

/-- Claim C4 (amended): For every connection on which `stop()` has been
called: attempting to start a write on either channel is a complete
no-op; a write-completion callback only lets the transport retire the
operation and leaves the queues, flags and stopped flag unchanged; an
enqueue of a response or telemetry frame still appends the item to the
queue, but changes no flag and initiates no write. -/
theorem C4_stopped_operations (canPack : Nat → Bool) (chain failed : Bool)
    (s : QState) (x : Nat) (h : s.stopped = true) :
    qTryStart canPack s = s ∧
    qComplete canPack chain failed s = { s with outstanding := s.outstanding - 1 } ∧
    qEnqueue x s = { s with pending := s.pending ++ [x],
                            enqueued := s.enqueued ++ [x] } := by
  refine ⟨?_, ?_, rfl⟩
  · simp [qTryStart, h]
  · by_cases hout : s.outstanding = 0
    · obtain ⟨p, f, st, inf, o, en, co⟩ := s
      simp only at hout
      subst hout
      simp [qComplete]
    · simp [qComplete, hout, h]

/-- Concrete stopped-connection state used to witness
`C4_stopped_operations`: one item still queued, a transport write still
outstanding from before the stop. -/
def qC4 : QState := ⟨[1], false, true, none, 1, [1], []⟩

theorem C4_stopped_operations_witness :
    qTryStart (fun _ => true) qC4 = qC4 ∧
    qComplete (fun _ => true) true false qC4 =
      { qC4 with outstanding := qC4.outstanding - 1 } ∧
    qEnqueue 5 qC4 = { qC4 with pending := qC4.pending ++ [5],
                                enqueued := qC4.enqueued ++ [5] } :=
  C4_stopped_operations (fun _ => true) true false qC4 5 rfl

/-!
## Whole-server model

Embedding of `ClientConnection`, the connection registry
(`std::map<int, ClientConnectionPtr>`, iterated in ascending id order),
and `ServerNetworkManagerImpl` with the shared UDP socket.  Endpoints
are opaque `Nat`s; a default-constructed `udp::endpoint` is `0`.
Telemetry frames are carried as their encoded body size; responses as a
record with the correlation id (`request_id`) and an opaque payload tag.
The TCP read state machine is not modelled (no claim depends on it).
-/

/-- A protobuf `Response` as far as this layer inspects it: the
correlation id `request_id` (`-1` marks an unsolicited notification) and
an opaque payload tag. -/
structure Response where
  requestId : Int
  payload : Nat
deriving DecidableEq, Repr

/-- One `ClientConnection`.  `boundOnce` is ghost state recording that
`bind_udp_remote_endpoint` has been called; `tcpWritesOutstanding` /
`udpWritesOutstanding` are ghost counters of asynchronous writes
initiated on the TCP socket / the shared UDP socket via this connection
whose completion callbacks have not yet fired. -/
structure Conn where
  connId : Nat
  udpRemoteEndpoint : Nat
  boundOnce : Bool
  pendingResponses : List Response
  pendingDataframes : List Nat
  connectionStopped : Bool
  hasPendingTcpWrite : Bool
  hasPendingUdpWrite : Bool
  tcpWritesOutstanding : Nat
  udpWritesOutstanding : Nat
deriving DecidableEq, Repr

/-- The `ClientConnection` constructor: fresh queues, endpoint
default-constructed, all flags false. -/
def newConn (id : Nat) : Conn :=
  ⟨id, 0, false, [], [], false, false, false, 0, 0⟩

/-- Models `stop()`: marks the connection stopped and clears both in-flight
flags (the socket close is not modelled). -/
def stopConn (c : Conn) : Conn :=
  { c with connectionStopped := true, hasPendingTcpWrite := false,
           hasPendingUdpWrite := false }

/-- Models `bind_udp_remote_endpoint`: overwrites the stored peer endpoint. -/
def bindUdpRemoteEndpoint (c : Conn) (ep : Nat) : Conn :=
  { c with udpRemoteEndpoint := ep, boundOnce := true }

/-- Models `add_tcp_response_to_write_queue`: unconditional `push_back`. -/
def addTcpResponseToWriteQueue (c : Conn) (r : Response) : Conn :=
  { c with pendingResponses := c.pendingResponses ++ [r] }

/-- Models `add_controller_data_frame_to_write_queue`: unconditional `push_back`. -/
def addControllerDataFrameToWriteQueue (c : Conn) (f : Nat) : Conn :=
  { c with pendingDataframes := c.pendingDataframes ++ [f] }

/-- Models `start_tcp_write_queued_response`: returns the updated connection
and the `write_in_progress` result. -/
def startTcpWriteQueuedResponse (c : Conn) : Conn × Bool :=
  if c.connectionStopped then (c, false)
  else if c.hasPendingTcpWrite then (c, true)
  else
    match c.pendingResponses with
    | [] => (c, false)
    | _ :: _ =>
      ({ c with hasPendingTcpWrite := true,
                tcpWritesOutstanding := c.tcpWritesOutstanding + 1 }, true)

/-- Models `start_udp_write_queued_controller_data_frame`: packs the head frame
into the fixed buffer `m_dataframe_write_buffer` of size
`HEADER_SIZE + MAX_DATA_FRAME_MESSAGE_SIZE`; on pack success initiates
one `async_send_to` towards `m_udp_remote_endpoint` (no check that the
endpoint was ever bound); on pack failure ("DataFrame too big to fit in
packet!") only logs — the frame stays at the head of the queue. -/
def startUdpWriteQueuedControllerDataFrame (c : Conn) : Conn × Bool :=
  if c.connectionStopped then (c, false)
  else if c.hasPendingUdpWrite then (c, true)
  else
    match c.pendingDataframes with
    | [] => (c, false)
    | f :: _ =>
      if HEADER_SIZE + f ≤ HEADER_SIZE + MAX_DATA_FRAME_MESSAGE_SIZE then
        ({ c with hasPendingUdpWrite := true,
                  udpWritesOutstanding := c.udpWritesOutstanding + 1 }, true)
      else (c, false)

/-- Models `handle_write_response_complete`: the transport retires the write;
the handler returns at once on a stopped connection, pops the sent
response and chains the next write on success, stops on error. -/
def handleWriteResponseComplete (failed : Bool) (c : Conn) : Conn :=
  let c0 := { c with tcpWritesOutstanding := c.tcpWritesOutstanding - 1 }
  if c0.connectionStopped then c0
  else if failed then stopConn c0
  else
    (startTcpWriteQueuedResponse
      { c0 with hasPendingTcpWrite := false,
                pendingResponses := c0.pendingResponses.tail }).1

/-- Models `handle_udp_write_controller_data_frame_complete`: like the TCP
handler but with no chained restart (the next write is started by the
`poll()` scan). -/
def handleUdpWriteControllerDataFrameComplete (failed : Bool) (c : Conn) : Conn :=
  let c0 := { c with udpWritesOutstanding := c.udpWritesOutstanding - 1 }
  if c0.connectionStopped then c0
  else if failed then stopConn c0
  else
    { c0 with hasPendingUdpWrite := false,
              pendingDataframes := c0.pendingDataframes.tail }

/-- Models `connections.find(id)` on the id-ordered connection list. -/
def lookupConn : List Conn → Nat → Option Conn
  | [], _ => none
  | c :: rest, i => if c.connId = i then some c else lookupConn rest i

/-- Models `connections.find(id)` keyed by the `int` read from the wire. -/
def findConn : List Conn → Int → Option Conn
  | [], _ => none
  | c :: rest, i => if (c.connId : Int) = i then some c else findConn rest i

/-- In-place update of the connection with the given id. -/
def updateConn : List Conn → Nat → (Conn → Conn) → List Conn
  | [], _, _ => []
  | c :: rest, i, f =>
    if c.connId = i then f c :: rest else c :: updateConn rest i f

/-- In-place update keyed by the `int` read from the wire. -/
def updateConnI : List Conn → Int → (Conn → Conn) → List Conn
  | [], _, _ => []
  | c :: rest, i, f =>
    if (c.connId : Int) = i then f c :: rest else c :: updateConnI rest i f

/-- Models `ServerNetworkManagerImpl::start_udp_queued_data_frame_write`: scan
the registry in id order, attempt to start a queued telemetry write on
each connection, and break at the first one that reports a write in
progress ("Don't start a write on any other connection until this one is
finished"). -/
def startUdpQueuedDataFrameWrite : List Conn → List Conn
  | [] => []
  | c :: rest =>
    let r := startUdpWriteQueuedControllerDataFrame c
    if r.2 then r.1 :: rest
    else r.1 :: startUdpQueuedDataFrameWrite rest

/-- Models `has_queued_controller_data_frames_ready_to_start` (the accumulator
is `has_queued_write_ready_to_start`; the loop breaks with `false` as
soon as any connection has a UDP write in flight). -/
def hasQueuedControllerDataFramesReadyToStart : List Conn → Bool → Bool
  | [], found => found
  | c :: rest, found =>
    if c.hasPendingUdpWrite then false
    else hasQueuedControllerDataFramesReadyToStart rest
          (found || !c.pendingDataframes.isEmpty)

/-- Models `ServerNetworkManagerImpl` state.  The counters
`acceptOutstanding`, `udpReceivesOutstanding` and
`udpResultWritesOutstanding` are ghost counts of asynchronous accepts /
`async_receive_from`s / rendezvous-reply `async_send_to`s initiated but
not yet completed; `connectingEndpoint`, `connectionIdReadBuffer` and
`connectionResultWriteBuffer` are the members
`udp_connecting_remote_endpoint`, `m_udp_connection_id_read_buffer` and
`m_udp_connection_result_write_buffer`. -/
structure NetState where
  started : Bool
  conns : List Conn
  nextConnId : Nat
  acceptOutstanding : Nat
  udpReceivesOutstanding : Nat
  udpResultWritesOutstanding : Nat
  connectingEndpoint : Nat
  connectionIdReadBuffer : Int
  connectionResultWriteBuffer : Bool
deriving DecidableEq, Repr

/-- State before `startup()`. -/
def netInit : NetState := ⟨false, [], 0, 0, 0, 0, 0, 0, false⟩

/-- Models `start_udp_receive_connection_id`: arms one more asynchronous
receive on the shared UDP socket. -/
def startUdpReceiveConnectionId (s : NetState) : NetState :=
  { s with udpReceivesOutstanding := s.udpReceivesOutstanding + 1 }

/-- Models `start_tcp_accept`: creates the next `ClientConnection`, inserts it
into the registry *before* the accept completes, arms one asynchronous
accept, and then also arms another UDP connection-id receive. -/
def startTcpAccept (s : NetState) : NetState :=
  startUdpReceiveConnectionId
    { s with conns := s.conns ++ [newConn s.nextConnId],
             nextConnId := s.nextConnId + 1,
             acceptOutstanding := s.acceptOutstanding + 1 }

/-- Models `ClientConnection::start()`: clears the stopped flag, then
`send_connection_info()` enqueues the CONNECTION_INFO notification
(`request_id = -1`, payload carrying the connection id) and starts a TCP
write; the subsequent header read is not modelled. -/
def connStart (c : Conn) : Conn :=
  (startTcpWriteQueuedResponse
    (addTcpResponseToWriteQueue { c with connectionStopped := false }
      ⟨-1, c.connId⟩)).1

/-- Models `handle_tcp_accept`: on success starts the accepted connection (the
one created by the matching `start_tcp_accept`, id `nextConnId - 1`) and
re-arms acceptance; on failure only logs. -/
def handleTcpAccept (failed : Bool) (s : NetState) : NetState :=
  if failed then s
  else
    startTcpAccept
      { s with conns := updateConn s.conns (s.nextConnId - 1) connStart }

/-- Models `start_udp_send_connection_result`: stores the boolean in the write
buffer and initiates one `async_send_to` towards
`udp_connecting_remote_endpoint` — with no check of any other
outstanding write on the shared UDP socket. -/
def startUdpSendConnectionResult (success : Bool) (s : NetState) : NetState :=
  { s with connectionResultWriteBuffer := success,
           udpResultWritesOutstanding := s.udpResultWritesOutstanding + 1 }

/-- Models `handle_udp_read_connection_id`: on receive error only logs (the
receive is *not* re-armed); on success looks the received id up in the
registry, binds the sender endpoint and replies `true` when found,
replies `false` when not. -/
def handleUdpReadConnectionId (failed : Bool) (senderEp : Nat) (id : Int)
    (s : NetState) : NetState :=
  if failed then s
  else
    let s1 := { s with connectingEndpoint := senderEp,
                       connectionIdReadBuffer := id }
    match findConn s1.conns id with
    | some _ =>
      let conns1 :=
        updateConnI s1.conns id
          (fun c => bindUdpRemoteEndpoint c s1.connectingEndpoint)
      startUdpSendConnectionResult true { s1 with conns := conns1 }
    | none => startUdpSendConnectionResult false s1

/-- Models `handle_udp_write_connection_result`: an error is only logged;
in every case the next connection-id receive is armed. -/
def handleUdpWriteConnectionResult (_failed : Bool) (s : NetState) : NetState :=
  startUdpReceiveConnectionId s

/-- Models `send_notification`: looks the connection up, unconditionally sets
`request_id = -1` on the shared payload, and only when the connection
exists enqueues the response and starts a TCP write.  Returns the new
server state together with the (mutated) payload. -/
def sendNotification (s : NetState) (connectionId : Nat) (r : Response) :
    NetState × Response :=
  let entry := lookupConn s.conns connectionId
  let r1 : Response := { r with requestId := -1 }
  match entry with
  | none => (s, r1)
  | some _ =>
    let conns1 :=
      updateConn s.conns connectionId
        (fun c => (startTcpWriteQueuedResponse
          (addTcpResponseToWriteQueue c r1)).1)
    ({ s with conns := conns1 }, r1)

/-- Models `send_controller_data_frame`: when the connection exists, enqueues
the frame and runs the shared-socket telemetry scan. -/
def sendControllerDataFrame (s : NetState) (connectionId : Nat) (f : Nat) :
    NetState :=
  match lookupConn s.conns connectionId with
  | none => s
  | some _ =>
    let conns1 :=
      updateConn s.conns connectionId
        (fun c => addControllerDataFrameToWriteQueue c f)
    { s with conns := startUdpQueuedDataFrameWrite conns1 }

/-- The events the server reacts to: the public API calls and the
completion callbacks delivered by `io_service::poll()`.  A completion
event whose operation was never initiated is a no-op of the model. -/
inductive NetEvent where
  | startup
  | acceptComplete (failed : Bool)
  | udpReceiveComplete (failed : Bool) (senderEp : Nat) (id : Int)
  | udpResultWriteComplete (failed : Bool)
  | tcpWriteComplete (id : Nat) (failed : Bool)
  | udpDataFrameWriteComplete (id : Nat) (failed : Bool)
  | apiSendNotification (id : Nat) (r : Response)
  | apiSendDataFrame (id : Nat) (f : Nat)
  | scanDataFrames
deriving DecidableEq, Repr

/-- One step of the server state machine. -/
def netStep (s : NetState) : NetEvent → NetState
  | .startup => if s.started then s else startTcpAccept { s with started := true }
  | .acceptComplete failed =>
    if s.acceptOutstanding = 0 then s
    else handleTcpAccept failed
          { s with acceptOutstanding := s.acceptOutstanding - 1 }
  | .udpReceiveComplete failed ep i =>
    if s.udpReceivesOutstanding = 0 then s
    else handleUdpReadConnectionId failed ep i
          { s with udpReceivesOutstanding := s.udpReceivesOutstanding - 1 }
  | .udpResultWriteComplete failed =>
    if s.udpResultWritesOutstanding = 0 then s
    else handleUdpWriteConnectionResult failed
          { s with udpResultWritesOutstanding := s.udpResultWritesOutstanding - 1 }
  | .tcpWriteComplete i failed =>
    match lookupConn s.conns i with
    | none => s
    | some c =>
      if c.tcpWritesOutstanding = 0 then s
      else { s with conns := updateConn s.conns i (handleWriteResponseComplete failed) }
  | .udpDataFrameWriteComplete i failed =>
    match lookupConn s.conns i with
    | none => s
    | some c =>
      if c.udpWritesOutstanding = 0 then s
      else { s with conns :=
              updateConn s.conns i (handleUdpWriteControllerDataFrameComplete failed) }
  | .apiSendNotification i r => (sendNotification s i r).1
  | .apiSendDataFrame i f => sendControllerDataFrame s i f
  | .scanDataFrames => { s with conns := startUdpQueuedDataFrameWrite s.conns }

/-- The server state reached from process start by a sequence of events. -/
def netRun (events : List NetEvent) : NetState :=
  events.foldl netStep netInit

/-- All writes outstanding on the shared UDP socket: telemetry
data-frame writes from every connection plus rendezvous-reply writes
from the coordinator. -/
def totalUdpWritesOutstanding (s : NetState) : Nat :=
  (s.conns.map Conn.udpWritesOutstanding).sum + s.udpResultWritesOutstanding

/-- Sum of the outstanding telemetry data-frame writes over a list of
connections. -/
def sumUdpWritesOutstanding (cs : List Conn) : Nat :=
  (cs.map Conn.udpWritesOutstanding).sum

lemma sumUdpWritesOutstanding_cons (c : Conn) (cs : List Conn) :
    sumUdpWritesOutstanding (c :: cs) =
      c.udpWritesOutstanding + sumUdpWritesOutstanding cs := by
  simp [sumUdpWritesOutstanding]

lemma startUdpWrite_of_false (c : Conn)
    (h : (startUdpWriteQueuedControllerDataFrame c).2 = false) :
    (startUdpWriteQueuedControllerDataFrame c).1 = c := by
  cases hst : c.connectionStopped with
  | true => simp [startUdpWriteQueuedControllerDataFrame, hst]
  | false =>
  cases hfl : c.hasPendingUdpWrite with
  | true => simp [startUdpWriteQueuedControllerDataFrame, hst, hfl] at h
  | false =>
  cases hp : c.pendingDataframes with
  | nil => simp [startUdpWriteQueuedControllerDataFrame, hst, hfl, hp]
  | cons f t =>
    by_cases hsz : HEADER_SIZE + f ≤ HEADER_SIZE + MAX_DATA_FRAME_MESSAGE_SIZE
    · simp [startUdpWriteQueuedControllerDataFrame, hst, hfl, hp, hsz] at h
    · simp [startUdpWriteQueuedControllerDataFrame, hst, hfl, hp, hsz]

lemma startUdpWrite_outstanding_le (c : Conn) :
    (startUdpWriteQueuedControllerDataFrame c).1.udpWritesOutstanding ≤
      c.udpWritesOutstanding + 1 := by
  cases hst : c.connectionStopped with
  | true => simp [startUdpWriteQueuedControllerDataFrame, hst]
  | false =>
  cases hfl : c.hasPendingUdpWrite with
  | true => simp [startUdpWriteQueuedControllerDataFrame, hst, hfl]
  | false =>
  cases hp : c.pendingDataframes with
  | nil => simp [startUdpWriteQueuedControllerDataFrame, hst, hfl, hp]
  | cons f t =>
    by_cases hsz : HEADER_SIZE + f ≤ HEADER_SIZE + MAX_DATA_FRAME_MESSAGE_SIZE
    · simp [startUdpWriteQueuedControllerDataFrame, hst, hfl, hp, hsz]
    · simp [startUdpWriteQueuedControllerDataFrame, hst, hfl, hp, hsz]

lemma scan_sum_le (cs : List Conn) :
    sumUdpWritesOutstanding (startUdpQueuedDataFrameWrite cs) ≤
      sumUdpWritesOutstanding cs + 1 := by
  induction cs with
  | nil => simp [startUdpQueuedDataFrameWrite]
  | cons c rest ih =>
    have hle := startUdpWrite_outstanding_le c
    cases hr : (startUdpWriteQueuedControllerDataFrame c).2 with
    | true =>
      simp only [startUdpQueuedDataFrameWrite, hr, if_pos,
        sumUdpWritesOutstanding_cons]
      omega
    | false =>
      have heq := startUdpWrite_of_false c hr
      simp only [startUdpQueuedDataFrameWrite, hr, Bool.false_eq_true,
        if_false, heq, sumUdpWritesOutstanding_cons]
      omega

/-- Claim C2 counterexample: a reachable state with two writes
outstanding on the shared UDP socket at once.  After startup, one
accepted client and one queued telemetry frame, the frame write is in
flight; an inbound rendezvous datagram (with an unknown identifier) then
makes the coordinator start a reply `async_send_to` on the same socket
with no check of the in-flight data-frame write. -/
theorem C2_counterexample :
    ¬ totalUdpWritesOutstanding
        (netRun [.startup, .acceptComplete false, .apiSendDataFrame 0 5,
                 .udpReceiveComplete false 9 99]) ≤ 1 := by
  decide

/-- Claim C2 (amended): a single invocation of the telemetry scan
(`start_udp_queued_data_frame_write`) initiates at most one new
data-frame write, and once the scan meets a running connection with a
write already in flight it touches no connection at all; but rendezvous
reply writes (and data-frame writes started by separate scan
invocations) are not serialized against in-flight data-frame writes, so
more than one write can be outstanding on the shared UDP socket. -/
theorem C2_scan_serialization (cs : List Conn) (c : Conn) (rest : List Conn)
    (h1 : c.hasPendingUdpWrite = true) (h2 : c.connectionStopped = false) :
    sumUdpWritesOutstanding (startUdpQueuedDataFrameWrite cs) ≤
      sumUdpWritesOutstanding cs + 1 ∧
    startUdpQueuedDataFrameWrite (c :: rest) = c :: rest := by
  refine ⟨scan_sum_le cs, ?_⟩
  simp [startUdpQueuedDataFrameWrite, startUdpWriteQueuedControllerDataFrame,
    h1, h2]

/-- Concrete connection with a data-frame write in flight, used to
witness `C2_scan_serialization`. -/
def busyConn : Conn := ⟨0, 3, true, [], [5], false, false, true, 0, 1⟩

theorem C2_scan_serialization_witness :
    sumUdpWritesOutstanding (startUdpQueuedDataFrameWrite [busyConn]) ≤
      sumUdpWritesOutstanding [busyConn] + 1 ∧
    startUdpQueuedDataFrameWrite [busyConn] = [busyConn] := by
  have h := C2_scan_serialization [busyConn] busyConn [] rfl rfl
  exact ⟨h.1, h.2⟩

/-- Concrete connection whose head telemetry frame is one byte larger
than the fixed transmit buffer allows, with a second, fitting frame
queued behind it. -/
def oversizeConn : Conn :=
  ⟨0, 3, true, [], [MAX_DATA_FRAME_MESSAGE_SIZE + 1, 3], false, false, false, 0, 0⟩

/-- Claim C3: evaluation of the code at the failing input.  When the
head telemetry frame does not fit the fixed buffer,
`start_udp_write_queued_controller_data_frame` only logs: the frame is
*not* removed from the queue, no write is started, the connection state
is completely unchanged — so the registry-wide scan leaves everything in
place and `has_queued_controller_data_frames_ready_to_start` keeps
reporting ready work (the fitting frame behind the oversize head is
never transmitted, and `poll()` spins to its iteration cap on every
tick). -/
theorem C3_oversize_frame_left_queued :
    startUdpWriteQueuedControllerDataFrame oversizeConn = (oversizeConn, false) ∧
    startUdpQueuedDataFrameWrite [oversizeConn] = [oversizeConn] ∧
    hasQueuedControllerDataFramesReadyToStart [oversizeConn] false = true := by
  decide

/-- Claim C5 counterexample: a reachable state with two outstanding
connection-id receives.  `startup()` arms one receive; when the first
TCP accept completes, `handle_tcp_accept` calls `start_tcp_accept`,
which arms another receive while the first is still outstanding. -/
theorem C5_counterexample :
    (netRun [.startup, .acceptComplete false]).udpReceivesOutstanding = 2 ∧
    (netRun [.startup, .acceptComplete false]).udpReceivesOutstanding ≠ 1 := by
  decide

/-- Claim C5 (amended): after every successfully received
connection-identifier datagram — found or not — exactly one reply write
is started, and the completion of a reply write (success or failure)
always arms a new receive; but a failed receive is *not* re-armed, and
every completed TCP accept arms an additional receive, so the number of
outstanding receives is not always exactly one. -/
theorem C5_receive_rearm (s : NetState) (ep : Nat) (i : Int) (failed : Bool)
    (hr : s.udpReceivesOutstanding ≠ 0)
    (hw : s.udpResultWritesOutstanding ≠ 0) :
    (netStep s (.udpReceiveComplete false ep i)).udpResultWritesOutstanding =
      s.udpResultWritesOutstanding + 1 ∧
    (netStep s (.udpResultWriteComplete failed)).udpReceivesOutstanding =
      s.udpReceivesOutstanding + 1 ∧
    (netStep s (.udpReceiveComplete true ep i)).udpReceivesOutstanding =
      s.udpReceivesOutstanding - 1 := by
  refine ⟨?_, ?_, ?_⟩
  · cases hf : findConn s.conns i with
    | some c =>
      simp [netStep, hr, handleUdpReadConnectionId, hf,
        startUdpSendConnectionResult]
    | none =>
      simp [netStep, hr, handleUdpReadConnectionId, hf,
        startUdpSendConnectionResult]
  · simp [netStep, hw, handleUdpWriteConnectionResult,
      startUdpReceiveConnectionId]
  · simp [netStep, hr, handleUdpReadConnectionId]

/-- Concrete coordinator state with one receive and one reply write
outstanding, used to witness `C5_receive_rearm`. -/
def c5State : NetState := ⟨true, [], 0, 0, 1, 1, 0, 0, false⟩

theorem C5_receive_rearm_witness :
    (netStep c5State (.udpReceiveComplete false 7 3)).udpResultWritesOutstanding =
      c5State.udpResultWritesOutstanding + 1 ∧
    (netStep c5State (.udpResultWriteComplete true)).udpReceivesOutstanding =
      c5State.udpReceivesOutstanding + 1 ∧
    (netStep c5State (.udpReceiveComplete true 7 3)).udpReceivesOutstanding =
      c5State.udpReceivesOutstanding - 1 :=
  C5_receive_rearm c5State 7 3 true (by decide) (by decide)

/-- Claim C6 counterexample: a reachable state in which a connection
whose datagram peer was never bound has a telemetry write in flight.
A frame is pushed for connection 0 before any rendezvous datagram
arrives; `send_controller_data_frame` immediately runs the scan, which
initiates an `async_send_to` with no check that the endpoint was ever
bound. -/
theorem C6_counterexample :
    ((lookupConn
        (netRun [.startup, .acceptComplete false, .apiSendDataFrame 0 5]).conns
        0).map
      (fun c => (c.boundOnce, c.hasPendingUdpWrite, c.udpWritesOutstanding))) =
      some (false, true, 1) := by
  decide

/-- Claim C6 (amended): telemetry frames may be enqueued before the
datagram peer is bound, but a telemetry write *is* initiated regardless
of whether `bind_udp_remote_endpoint` was ever called — the datagram is
targeted at whatever endpoint value the connection currently holds,
which for a never-bound connection is the default-constructed endpoint
it was created with. -/
theorem C6_write_regardless_of_binding (c : Conn) (f : Nat) (t : List Nat)
    (n : Nat) (h1 : c.connectionStopped = false)
    (h2 : c.hasPendingUdpWrite = false) (h3 : c.pendingDataframes = f :: t)
    (h4 : f ≤ MAX_DATA_FRAME_MESSAGE_SIZE) :
    (startUdpWriteQueuedControllerDataFrame c).2 = true ∧
    (startUdpWriteQueuedControllerDataFrame c).1.hasPendingUdpWrite = true ∧
    (startUdpWriteQueuedControllerDataFrame c).1.udpWritesOutstanding =
      c.udpWritesOutstanding + 1 ∧
    (startUdpWriteQueuedControllerDataFrame c).1.udpRemoteEndpoint =
      c.udpRemoteEndpoint ∧
    (startUdpWriteQueuedControllerDataFrame c).1.boundOnce = c.boundOnce ∧
    (newConn n).udpRemoteEndpoint = 0 ∧ (newConn n).boundOnce = false := by
  have hsz : HEADER_SIZE + f ≤ HEADER_SIZE + MAX_DATA_FRAME_MESSAGE_SIZE := by
    omega
  simp [startUdpWriteQueuedControllerDataFrame, h1, h2, h3, hsz, newConn]

/-- Concrete never-bound connection with one fitting queued frame, used
to witness `C6_write_regardless_of_binding`. -/
def unboundConn : Conn := ⟨0, 0, false, [], [3], false, false, false, 0, 0⟩

theorem C6_write_regardless_of_binding_witness :
    (startUdpWriteQueuedControllerDataFrame unboundConn).2 = true ∧
    (startUdpWriteQueuedControllerDataFrame unboundConn).1.hasPendingUdpWrite = true ∧
    (startUdpWriteQueuedControllerDataFrame unboundConn).1.udpWritesOutstanding =
      unboundConn.udpWritesOutstanding + 1 ∧
    (startUdpWriteQueuedControllerDataFrame unboundConn).1.udpRemoteEndpoint =
      unboundConn.udpRemoteEndpoint ∧
    (startUdpWriteQueuedControllerDataFrame unboundConn).1.boundOnce =
      unboundConn.boundOnce ∧
    (newConn 9).udpRemoteEndpoint = 0 ∧ (newConn 9).boundOnce = false :=
  C6_write_regardless_of_binding unboundConn 3 [] 9 rfl rfl rfl (by decide)

/-!
## The bounded `poll()` loop (C7)

`io_service::poll()` may run any number of completion callbacks and, via
the request handler, any of the public API calls; the model abstracts
one such dispatch round as an arbitrary function of the iteration index
and the server state.
-/

/-- The constant `k_max_iteration_count` of `ServerNetworkManagerImpl::poll`. -/
def kMaxIterationCount : Nat := 32

/-- Models the `while (keep_polling && iteration_count < k_max_iteration_count)`
loop of `poll()`: each iteration runs the telemetry scan, then one
dispatch round (`io_service.poll()`, arbitrary behaviour), then
re-evaluates `keep_polling` from
`has_queued_controller_data_frames_ready_to_start`.  The fuel argument
is `k_max_iteration_count - iteration_count`; the returned number is the
count of executed iterations. -/
def pollLoop (dispatch : Nat → NetState → NetState) :
    Nat → Bool → Nat → NetState → NetState × Nat
  | 0, _, n, s => (s, n)
  | fuel + 1, keepPolling, n, s =>
    if keepPolling then
      let s2 := dispatch n { s with conns := startUdpQueuedDataFrameWrite s.conns }
      pollLoop dispatch fuel
        (hasQueuedControllerDataFramesReadyToStart s2.conns false) (n + 1) s2
    else (s, n)

/-- Models `ServerNetworkManagerImpl::poll()`. -/
def poll (dispatch : Nat → NetState → NetState) (s : NetState) : NetState × Nat :=
  pollLoop dispatch kMaxIterationCount true 0 s

lemma pollLoop_count_le (dispatch : Nat → NetState → NetState) :
    ∀ (fuel : Nat) (keepPolling : Bool) (n : Nat) (s : NetState),
      (pollLoop dispatch fuel keepPolling n s).2 ≤ n + fuel := by
  intro fuel
  induction fuel with
  | zero => intro keepPolling n s; simp [pollLoop]
  | succ fuel ih =>
    intro keepPolling n s
    cases keepPolling with
    | false => simp [pollLoop]
    | true =>
      simp only [pollLoop, if_pos]
      have h := ih (hasQueuedControllerDataFramesReadyToStart
        (dispatch n { s with conns := startUdpQueuedDataFrameWrite s.conns }).conns
        false) (n + 1)
        (dispatch n { s with conns := startUdpQueuedDataFrameWrite s.conns })
      omega

/-- A completion-dispatcher behaviour under which a telemetry frame is
ready to send again after every dispatch round (a data-frame write
completes and a new frame is enqueued each time), so `keep_polling`
never becomes false on its own. -/
def perpetualDispatch : Nat → NetState → NetState :=
  fun _ s => { s with conns := [⟨0, 3, true, [], [1], false, false, false, 0, 0⟩] }

/-- Claim C7: for every registry state and every behaviour of the
completion dispatcher, one call to `poll()` executes at most
`k_max_iteration_count = 32` loop iterations and returns; and with a
dispatcher that keeps a telemetry frame perpetually ready the cap of 32
iterations is exactly reached. -/
theorem C7_poll_bounded (dispatch : Nat → NetState → NetState) (s : NetState) :
    (poll dispatch s).2 ≤ kMaxIterationCount ∧
    (poll perpetualDispatch netInit).2 = kMaxIterationCount := by
  constructor
  · have h := pollLoop_count_le dispatch kMaxIterationCount true 0 s
    simpa [poll] using h
  · decide

/-- Claim C8: for every inbound rendezvous datagram (successful receive
of identifier `i` from sender endpoint `ep`): exactly one reply write is
started, towards the sender (`udp_connecting_remote_endpoint = ep`),
whose buffer holds `true` exactly when the identifier is in the
registry; when found, the sender's endpoint is bound to that connection
and no other connection is touched; when not found, no connection state
changes at all. -/
theorem C8_rendezvous (s : NetState) (ep : Nat) (i : Int)
    (h : s.udpReceivesOutstanding ≠ 0) :
    (netStep s (.udpReceiveComplete false ep i)).udpResultWritesOutstanding =
      s.udpResultWritesOutstanding + 1 ∧
    (netStep s (.udpReceiveComplete false ep i)).connectingEndpoint = ep ∧
    (netStep s (.udpReceiveComplete false ep i)).connectionResultWriteBuffer =
      (findConn s.conns i).isSome ∧
    (netStep s (.udpReceiveComplete false ep i)).conns =
      (match findConn s.conns i with
       | some _ => updateConnI s.conns i (fun c => bindUdpRemoteEndpoint c ep)
       | none => s.conns) := by
  cases hf : findConn s.conns i with
  | some c =>
    simp [netStep, h, handleUdpReadConnectionId, hf,
      startUdpSendConnectionResult]
  | none =>
    simp [netStep, h, handleUdpReadConnectionId, hf,
      startUdpSendConnectionResult]

theorem C8_rendezvous_witness :
    (netStep (netRun [.startup]) (.udpReceiveComplete false 7 0)).udpResultWritesOutstanding =
      (netRun [.startup]).udpResultWritesOutstanding + 1 ∧
    (netStep (netRun [.startup]) (.udpReceiveComplete false 7 0)).connectingEndpoint = 7 ∧
    (netStep (netRun [.startup]) (.udpReceiveComplete false 7 0)).connectionResultWriteBuffer =
      (findConn (netRun [.startup]).conns 0).isSome ∧
    (netStep (netRun [.startup]) (.udpReceiveComplete false 7 0)).conns =
      (match findConn (netRun [.startup]).conns 0 with
       | some _ =>
         updateConnI (netRun [.startup]).conns 0 (fun c => bindUdpRemoteEndpoint c 7)
       | none => (netRun [.startup]).conns) :=
  C8_rendezvous (netRun [.startup]) 7 0 (by decide)

/-!
## Byte-level layout of one telemetry datagram (C9)
-/

/-- Modelled from the spec: the fixed-width length header, a big-endian
`HEADER_SIZE`-byte unsigned integer giving the body length in bytes. -/
def encodeHeader (n : Nat) : List Nat :=
  [n / 2 ^ 24 % 256, n / 2 ^ 16 % 256, n / 2 ^ 8 % 256, n % 256]

/-- Models `PackedMessage::pack(buffer, size)` on the fixed telemetry
buffer (the pack routine itself lives in packedmessage.h, outside the
core source; modelled from the spec: header followed by body, failing
when they do not fit the fixed buffer).  Bytes of the buffer beyond
header+body keep their previous content. -/
def packIntoBuffer (buffer body : List Nat) : Option (List Nat) :=
  if HEADER_SIZE + body.length ≤ buffer.length then
    some ((encodeHeader body.length ++ body) ++
            buffer.drop (HEADER_SIZE + body.length))
  else none

/-- Models `m_dataframe_write_buffer`: the zero-initialized fixed array
of `HEADER_SIZE + MAX_DATA_FRAME_MESSAGE_SIZE` bytes. -/
def dataframeWriteBuffer : List Nat :=
  List.replicate (HEADER_SIZE + MAX_DATA_FRAME_MESSAGE_SIZE) 0

/-- The datagram handed to the transport for one telemetry frame:
`async_send_to(boost::asio::buffer(m_dataframe_write_buffer,
sizeof(m_dataframe_write_buffer)), ...)` sends the *entire* fixed buffer
after packing, not just `HEADER_SIZE + body` bytes. -/
def udpDataframeDatagram (buffer body : List Nat) : Option (List Nat) :=
  packIntoBuffer buffer body

/-- Claim C9 counterexample: for a one-byte telemetry body the datagram
handed to the transport has the full fixed buffer length, not the
envelope length `HEADER_SIZE + 1` — so it does not consist of the
envelope "and nothing more". -/
theorem C9_counterexample :
    (udpDataframeDatagram dataframeWriteBuffer [7]).map List.length =
      some (HEADER_SIZE + MAX_DATA_FRAME_MESSAGE_SIZE) ∧
    HEADER_SIZE + MAX_DATA_FRAME_MESSAGE_SIZE ≠
      HEADER_SIZE + ([7] : List Nat).length := by
  decide

/-- Claim C9 (amended): every transmitted telemetry datagram has exactly
the fixed buffer size, and its first `HEADER_SIZE + body length` bytes
are exactly the envelope — the fixed-size header declaring the body
length followed by the body; the remaining bytes are stale buffer
content. -/
theorem C9_datagram_layout (buffer body dg : List Nat)
    (h : udpDataframeDatagram buffer body = some dg) :
    dg.length = buffer.length ∧
    dg.take (HEADER_SIZE + body.length) = encodeHeader body.length ++ body := by
  unfold udpDataframeDatagram packIntoBuffer at h
  split at h
  · rename_i hle
    have hdg := Option.some.inj h
    subst hdg
    have hlen : (encodeHeader body.length ++ body).length =
        HEADER_SIZE + body.length := by
      simp only [encodeHeader, HEADER_SIZE, List.length_append,
        List.length_cons, List.length_nil]
    constructor
    · simp only [List.length_append, List.length_drop, hlen]
      omega
    · rw [← hlen, List.take_left]
  · exact absurd h (by simp)

theorem C9_datagram_layout_witness :
    ([0, 0, 0, 1, 9] : List Nat).length = ([0, 0, 0, 0, 0] : List Nat).length ∧
    ([0, 0, 0, 1, 9] : List Nat).take (HEADER_SIZE + ([9] : List Nat).length) =
      encodeHeader ([9] : List Nat).length ++ [9] :=
  C9_datagram_layout [0, 0, 0, 0, 0] [9] [0, 0, 0, 1, 9] (by decide)

/-- Claim C10: for a connection identifier not present in the registry,
`send_notification` changes no server state and reports no error, yet
still mutates the shared payload, setting its correlation identifier to
the notification sentinel `-1` — the mutation is unconditional, not
guarded by the registry lookup. -/
theorem C10_notification_unknown_id (s : NetState) (i : Nat) (r : Response)
    (h : lookupConn s.conns i = none) :
    sendNotification s i r = (s, { r with requestId := -1 }) := by
  simp [sendNotification, h]

theorem C10_notification_unknown_id_witness :
    sendNotification netInit 3 ⟨5, 7⟩ =
      (netInit, { (⟨5, 7⟩ : Response) with requestId := -1 }) :=
  C10_notification_unknown_id netInit 3 ⟨5, 7⟩ rfl

end ServerNetworkManager
